import Mathlib

/-!
Shallow embedding of the authentication core of the Multi-Tenant Task
Management System backend: `SecurityManager` (app/backend/core/security.py)
and `AuthService` (app/backend/services/auth_service.py).

Modelling conventions:
- Machine time is an abstract `Nat` number of seconds; every operation that
  reads the clock takes `now` explicitly.
- A JWT string is modelled symbolically by the inductive `Token`: either a
  compact token signed for a payload with a key and algorithm, or a string
  that is not a well-formed signed token at all (`garbage`).
- The PyJWT library calls `jwt.encode` / `jwt.decode` are modelled by
  `jwtEncode` / `jwtDecode`; all PyJWT failures (bad signature, malformed
  structure, expired, not yet valid, wrong algorithm) are values of
  `JwtError`, matching the fact that the service code catches them
  uniformly as `PyJWTError`.
- The passlib `CryptContext(schemes=["argon2"])` is modelled by `HashStr`
  and `cryptContext_verify`; passlib raises `UnknownHashError` when the
  hash string cannot be identified as a hash of a configured scheme, which
  is modelled as an `Except.error`.
- Mutation of the two in-memory blacklist sets is modelled by explicit
  state passing of the `SecurityManager` structure; Python `set.add` is
  the idempotent `setAdd` on lists.
- `raise HTTPException(...)` is modelled as `Except.error` carrying the
  status code and detail string from the source.
-/

namespace TaskMgr

/-- Abstract UUID values (`uuid.UUID` in the source). -/
abbrev UUID := Nat

/-- Python string values as they occur in the `sub` claim: either the
canonical string rendering of a UUID, or any other string. -/
inductive PyStr where
  | uuidStr (u : UUID)
  | other (s : String)
deriving DecidableEq, Repr

/-- `str(u)` for a UUID `u`: the canonical, injective rendering. -/
def uuidToStr (u : UUID) : PyStr := PyStr.uuidStr u

/-- `uuid.UUID(s)`: parses the string back to a UUID, raising `ValueError`
(modelled as `none`) when the string is not a valid UUID rendering. -/
def parseUUID : PyStr → Option UUID
  | PyStr.uuidStr u => some u
  | PyStr.other _ => none

/-- The JWT payload dictionary built by the token constructors: keys
`sub`, `type`, `iat`, `nbf`, `exp`.  `sub` and `type` are optional because
`payload.get` in the source may find them absent on foreign tokens. -/
structure Claims where
  sub : Option PyStr
  type : Option String
  iat : Nat
  nbf : Nat
  exp : Nat
deriving DecidableEq, Repr

/-- A token string, symbolically: `signed payload key alg` is the compact
JWT produced by signing `payload` with `key` under algorithm `alg`
(PyJWT encoding is deterministic, so equality of these models equality of
the token strings); `garbage s` is any string that is not a signed token. -/
inductive Token where
  | signed (payload : Claims) (key : String) (alg : String)
  | garbage (s : String)
deriving DecidableEq, Repr

/-- The single error kind raised by the JWT layer (`jwt.PyJWTError` and its
subclasses); the message distinguishes sub-reasons only for logging. -/
inductive JwtError where
  | invalidToken (msg : String)
deriving DecidableEq, Repr

/-- `jwt.encode(payload, key, algorithm=alg)`. -/
def jwtEncode (payload : Claims) (key : String) (alg : String) : Token :=
  Token.signed payload key alg

/-- `jwt.decode(token, key, algorithms=[alg])`: verifies the signature
(the token must have been signed with the same key and algorithm) and the
validity window `nbf <= now < exp`; any failure raises a `PyJWTError`. -/
def jwtDecode (token : Token) (key : String) (alg : String) (now : Nat) :
    Except JwtError Claims :=
  match token with
  | Token.garbage _ => Except.error (JwtError.invalidToken "Not enough segments")
  | Token.signed payload k a =>
    if k = key ∧ a = alg then
      if payload.exp ≤ now then
        Except.error (JwtError.invalidToken "Signature has expired")
      else if now < payload.nbf then
        Except.error (JwtError.invalidToken "The token is not yet valid")
      else
        Except.ok payload
    else
      Except.error (JwtError.invalidToken "Signature verification failed")

/-- The configuration fields of `Settings` that the security core reads. -/
structure Settings where
  JWT_ALGORITHM : String
  JWT_ACCESS_TOKEN_EXPIRE_MINUTES : Nat
  JWT_REFRESH_TOKEN_EXPIRE_DAYS : Nat
  JWT_SECRET_KEY : String
deriving DecidableEq, Repr

/-- Python `expires_delta or timedelta(...)`: a `None` argument, and also a
zero timedelta (falsy in Python), fall back to the configured default.
Durations are in seconds. -/
def timedeltaOr (d : Option Nat) (fallback : Nat) : Nat :=
  match d with
  | none => fallback
  | some v => if v = 0 then fallback else v

/-- Python `set.add`: insert if not already present (idempotent). -/
def setAdd (t : Token) (s : List Token) : List Token :=
  if t ∈ s then s else t :: s

/-- The state of a `SecurityManager` instance: its settings and the two
in-memory blacklist sets `_blacklist_access` and `_blacklist_refresh`. -/
structure SecurityManager where
  settings : Settings
  blacklist_access : List Token
  blacklist_refresh : List Token
deriving DecidableEq, Repr

/-- `SecurityManager.revoke_access_token`. -/
def revoke_access_token (sm : SecurityManager) (token : Token) : SecurityManager :=
  { sm with blacklist_access := setAdd token sm.blacklist_access }

/-- `SecurityManager.revoke_refresh_token`. -/
def revoke_refresh_token (sm : SecurityManager) (token : Token) : SecurityManager :=
  { sm with blacklist_refresh := setAdd token sm.blacklist_refresh }

/-- `SecurityManager.is_access_token_revoked`. -/
def is_access_token_revoked (sm : SecurityManager) (token : Token) : Bool :=
  token ∈ sm.blacklist_access

/-- `SecurityManager.is_refresh_token_revoked`. -/
def is_refresh_token_revoked (sm : SecurityManager) (token : Token) : Bool :=
  token ∈ sm.blacklist_refresh

/-- `SecurityManager.decode_token`: decode and verify via PyJWT, then check
the blacklist selected by the `type` claim of the decoded payload. -/
def decode_token (sm : SecurityManager) (now : Nat) (token : Token) :
    Except JwtError Claims :=
  match jwtDecode token sm.settings.JWT_SECRET_KEY sm.settings.JWT_ALGORITHM now with
  | Except.error e => Except.error e
  | Except.ok payload =>
    if payload.type = some "access" ∧ token ∈ sm.blacklist_access then
      Except.error (JwtError.invalidToken "Access token has been revoked")
    else if payload.type = some "refresh" ∧ token ∈ sm.blacklist_refresh then
      Except.error (JwtError.invalidToken "Refresh token has been revoked")
    else
      Except.ok payload

/-- `SecurityManager.create_access_token`. -/
def create_access_token (sm : SecurityManager) (now : Nat) (sub : UUID)
    (expiresDelta : Option Nat) : Token :=
  let expire := now + timedeltaOr expiresDelta
    (sm.settings.JWT_ACCESS_TOKEN_EXPIRE_MINUTES * 60)
  jwtEncode
    { sub := some (uuidToStr sub), type := some "access",
      iat := now, nbf := now, exp := expire }
    sm.settings.JWT_SECRET_KEY sm.settings.JWT_ALGORITHM

/-- `SecurityManager.create_refresh_token`. -/
def create_refresh_token (sm : SecurityManager) (now : Nat) (sub : UUID)
    (expiresDelta : Option Nat) : Token :=
  let expire := now + timedeltaOr expiresDelta
    (sm.settings.JWT_REFRESH_TOKEN_EXPIRE_DAYS * 86400)
  jwtEncode
    { sub := some (uuidToStr sub), type := some "refresh",
      iat := now, nbf := now, exp := expire }
    sm.settings.JWT_SECRET_KEY sm.settings.JWT_ALGORITHM

/-- A stored Argon2 hash string: `argon2 p salt` is a self-describing hash
of plaintext `p` produced with a given salt; `malformed s` is any string
the configured hasher cannot identify as one of its hashes. -/
inductive HashStr where
  | argon2 (ofPlain : String) (salt : Nat)
  | malformed (s : String)
deriving DecidableEq, Repr

/-- The error passlib raises when a hash string cannot be identified
(`UnknownHashError`, a `ValueError`). -/
inductive PasslibError where
  | unknownHash
deriving DecidableEq, Repr

/-- passlib `CryptContext(schemes=["argon2"]).verify(plain, hashed)`:
returns the Boolean match result for a recognised Argon2 hash, and raises
`UnknownHashError` for a string that is not a recognised hash. -/
def cryptContext_verify (plain : String) (hashed : HashStr) :
    Except PasslibError Bool :=
  match hashed with
  | HashStr.argon2 p _ => Except.ok (decide (p = plain))
  | HashStr.malformed _ => Except.error PasslibError.unknownHash

/-- `SecurityManager.hash_password` (the salt argument models the per-call
random salt drawn by passlib). -/
def hash_password (plain : String) (salt : Nat) : HashStr :=
  HashStr.argon2 plain salt

/-- `SecurityManager.verify_password`: a bare delegation to
`CryptContext.verify`, with no exception handling of its own. -/
def verify_password (plain : String) (hashed : HashStr) :
    Except PasslibError Bool :=
  cryptContext_verify plain hashed

/-- A `User` row as the auth service reads it. -/
structure User where
  id : UUID
  email : String
  password_hash : HashStr
  full_name : String
deriving DecidableEq, Repr

/-- The `TokenResponse` schema (the `token_type` field defaults to
"bearer" in the pydantic model). -/
structure TokenResponse where
  access_token : Token
  refresh_token : Token
  token_type : String
deriving DecidableEq, Repr

/-- `fastapi.HTTPException` as raised by the auth service. -/
structure HTTPException where
  status_code : Nat
  detail : String
deriving DecidableEq, Repr

/-- `AuthService.refresh_tokens`.  The database is the list of user rows;
the result pairs the returned value (or raised `HTTPException`) with the
`SecurityManager` state after the call.  Failures raised inside the `try`
block before the final `revoke_refresh_token` leave the state untouched;
the `except PyJWTError` handler turns any JWT error into a 401. -/
def refresh_tokens (db : List User) (sm : SecurityManager) (now : Nat)
    (refresh_token : Token) :
    Except HTTPException TokenResponse × SecurityManager :=
  match decode_token sm now refresh_token with
  | Except.error _ =>
      (Except.error { status_code := 401, detail := "Invalid or expired refresh token" }, sm)
  | Except.ok payload =>
    if payload.type ≠ some "refresh" then
      (Except.error { status_code := 401, detail := "Invalid token type" }, sm)
    else
      match payload.sub with
      | none =>
          (Except.error { status_code := 401, detail := "Invalid token payload" }, sm)
      | some user_id_str =>
        match db.find? (fun u => uuidToStr u.id == user_id_str) with
        | none =>
            (Except.error { status_code := 401, detail := "User not found" }, sm)
        | some user =>
          if is_refresh_token_revoked sm refresh_token then
            (Except.error { status_code := 401, detail := "Token has been revoked" }, sm)
          else
            let user_id := user.id
            let new_access_token := create_access_token sm now user_id none
            let new_refresh_token := create_refresh_token sm now user_id none
            let sm2 := revoke_refresh_token sm refresh_token
            (Except.ok
              { access_token := new_access_token,
                refresh_token := new_refresh_token,
                token_type := "bearer" }, sm2)

/-- `AuthService.logout_user`: validates both tokens inside a `try` whose
`except PyJWTError` handler performs exactly the same two revocations as
the success path, so the method never raises to its caller and always
blacklists both argument strings by position. -/
def logout_user (sm : SecurityManager) (now : Nat)
    (access_token : Token) (refresh_token : Token) : SecurityManager :=
  match decode_token sm now access_token with
  | Except.error _ =>
      revoke_refresh_token (revoke_access_token sm access_token) refresh_token
  | Except.ok _ =>
    match decode_token sm now refresh_token with
    | Except.error _ =>
        revoke_refresh_token (revoke_access_token sm access_token) refresh_token
    | Except.ok _ =>
        revoke_refresh_token (revoke_access_token sm access_token) refresh_token

/-- `AuthService.get_current_user_id`: the per-request identity check.
The database `db` is available to the service object but never queried in
this method. `ValueError` from `UUID(user_id_str)` and `PyJWTError` from
decoding are caught and mapped to 401 responses. -/
def get_current_user_id (db : List User) (sm : SecurityManager) (now : Nat)
    (token : Token) : Except HTTPException UUID :=
  if is_access_token_revoked sm token then
    Except.error { status_code := 401, detail := "Token has been revoked" }
  else
    match decode_token sm now token with
    | Except.error _ =>
        Except.error { status_code := 401, detail := "Could not validate credentials" }
    | Except.ok payload =>
      match payload.sub with
      | none =>
          Except.error { status_code := 401, detail := "Could not validate credentials" }
      | some user_id_str =>
        match parseUUID user_id_str with
        | none =>
            Except.error { status_code := 401, detail := "Invalid user ID in token" }
        | some user_id =>
          if payload.type ≠ some "access" then
            Except.error
              { status_code := 401,
                detail := "Invalid token type. Only access tokens are allowed for this endpoint." }
          else
            Except.ok user_id

/-! ### Concrete instances used by witnesses -/

/-- A concrete settings object (15-minute access TTL, 7-day refresh TTL). -/
def settings0 : Settings :=
  { JWT_ALGORITHM := "HS256", JWT_ACCESS_TOKEN_EXPIRE_MINUTES := 15,
    JWT_REFRESH_TOKEN_EXPIRE_DAYS := 7, JWT_SECRET_KEY := "k" }

/-- A fresh `SecurityManager` with empty blacklists. -/
def sm0 : SecurityManager :=
  { settings := settings0, blacklist_access := [], blacklist_refresh := [] }

/-- A concrete well-formed refresh token for user 7, valid on `0 ≤ now < 100`. -/
def rt0 : Token :=
  Token.signed
    { sub := some (uuidToStr 7), type := some "refresh", iat := 0, nbf := 0, exp := 100 }
    "k" "HS256"

/-- A concrete user row matching the subject of `rt0`. -/
def user0 : User :=
  { id := 7, email := "a@x.com", password_hash := hash_password "pw" 0, full_name := "A" }

/-- A one-row user table. -/
def db0 : List User := [user0]

/-- The response a successful refresh of `rt0` at time 5 produces. -/
def resp0 : TokenResponse :=
  { access_token := create_access_token sm0 5 7 none,
    refresh_token := create_refresh_token sm0 5 7 none,
    token_type := "bearer" }

/-! ### Helper lemmas -/

theorem mem_setAdd_self (t : Token) (s : List Token) : t ∈ setAdd t s := by
  unfold setAdd
  split
  · assumption
  · exact List.mem_cons_self t s

theorem setAdd_of_mem (t : Token) (s : List Token) (h : t ∈ s) : setAdd t s = s := by
  unfold setAdd
  simp [h]

theorem mem_setAdd_iff (a t : Token) (s : List Token) :
    a ∈ setAdd t s ↔ a = t ∨ a ∈ s := by
  unfold setAdd
  split
  · rename_i hmem
    constructor
    · exact Or.inr
    · rintro (rfl | h)
      · exact hmem
      · assumption
  · simp [List.mem_cons]

/-- A successful `decode_token` means the underlying PyJWT decode succeeded
with the same payload. -/
theorem decode_token_ok_jwt (sm : SecurityManager) (now : Nat) (t : Token) (p : Claims)
    (h : decode_token sm now t = Except.ok p) :
    jwtDecode t sm.settings.JWT_SECRET_KEY sm.settings.JWT_ALGORITHM now = Except.ok p := by
  unfold decode_token at h
  cases hd : jwtDecode t sm.settings.JWT_SECRET_KEY sm.settings.JWT_ALGORITHM now with
  | error e => rw [hd] at h; cases h
  | ok q =>
    rw [hd] at h
    simp only [] at h
    split at h
    · cases h
    · split at h
      · cases h
      · cases h; rfl

/-- A successful PyJWT decode pins down the token: it is the compact token
signed for the returned payload with the verifying key and algorithm, and
the clock lies in its validity window. -/
theorem jwtDecode_ok_shape (t : Token) (key alg : String) (now : Nat) (p : Claims)
    (h : jwtDecode t key alg now = Except.ok p) :
    t = Token.signed p key alg ∧ p.nbf ≤ now ∧ now < p.exp := by
  cases t with
  | garbage s => simp [jwtDecode] at h
  | signed q k a =>
    simp only [jwtDecode] at h
    split at h
    · rename_i hka
      split at h
      · cases h
      · split at h
        · cases h
        · rename_i hexp hnbf
          injection h with h
          subst h
          obtain ⟨hk, ha⟩ := hka
          subst hk; subst ha
          exact ⟨rfl, by omega, by omega⟩
    · cases h

/-- PyJWT accepts a token signed with the verifying key and algorithm
whenever the clock lies in its validity window. -/
theorem jwtDecode_signed_ok (p : Claims) (key alg : String) (now : Nat)
    (h1 : p.nbf ≤ now) (h2 : now < p.exp) :
    jwtDecode (Token.signed p key alg) key alg now = Except.ok p := by
  simp [jwtDecode, not_le.mpr h2, not_lt.mpr h1]

/-- `decode_token` rejects a blacklisted refresh-typed token at every
clock value (by the revocation check when the window is valid, by the
window check otherwise). -/
theorem decode_token_revoked_refresh (sm : SecurityManager) (now : Nat) (p : Claims)
    (htype : p.type = some "refresh")
    (hmem : Token.signed p sm.settings.JWT_SECRET_KEY sm.settings.JWT_ALGORITHM ∈
      sm.blacklist_refresh) :
    ∃ e, decode_token sm now
      (Token.signed p sm.settings.JWT_SECRET_KEY sm.settings.JWT_ALGORITHM) =
      Except.error e := by
  unfold decode_token
  cases hd : jwtDecode
      (Token.signed p sm.settings.JWT_SECRET_KEY sm.settings.JWT_ALGORITHM)
      sm.settings.JWT_SECRET_KEY sm.settings.JWT_ALGORITHM now with
  | error e => exact ⟨e, rfl⟩
  | ok q =>
    have hq : p = q := by
      have := (jwtDecode_ok_shape _ _ _ _ _ hd).1
      injection this with h1 h2 h3
    subst hq
    simp [htype, hmem]

/-- Any `decode_token` failure makes `refresh_tokens` fail with the 401
produced by the `except PyJWTError` handler, leaving the state unchanged. -/
theorem refresh_tokens_of_decode_error (db : List User) (sm : SecurityManager)
    (now : Nat) (rt : Token) (e : JwtError)
    (h : decode_token sm now rt = Except.error e) :
    refresh_tokens db sm now rt =
      (Except.error { status_code := 401, detail := "Invalid or expired refresh token" },
       sm) := by
  unfold refresh_tokens
  rw [h]

/-- Inversion of the success path of `refresh_tokens`: the presented token
decoded to a refresh-typed payload and the only state change is the
revocation of that token. -/
theorem refresh_tokens_ok_inv (db : List User) (sm : SecurityManager) (now : Nat)
    (rt : Token) (resp : TokenResponse) (sm1 : SecurityManager)
    (h : refresh_tokens db sm now rt = (Except.ok resp, sm1)) :
    (∃ p, decode_token sm now rt = Except.ok p ∧ p.type = some "refresh") ∧
    rt ∉ sm.blacklist_refresh ∧
    sm1 = revoke_refresh_token sm rt := by
  unfold refresh_tokens at h
  cases hd : decode_token sm now rt with
  | error e => rw [hd] at h; simp at h
  | ok q =>
    rw [hd] at h
    simp only [] at h
    split at h
    · simp at h
    · rename_i htype
      split at h
      · simp at h
      · split at h
        · simp at h
        · split at h
          · simp at h
          · rename_i hrev
            simp only [Prod.mk.injEq, Except.ok.injEq] at h
            refine ⟨⟨q, rfl, ?_⟩, ?_, h.2.symm⟩
            · exact not_not.mp htype
            · simpa [is_refresh_token_revoked] using hrev

/-- Revoking a refresh token does not change the settings. -/
theorem revoke_refresh_token_settings (sm : SecurityManager) (t : Token) :
    (revoke_refresh_token sm t).settings = sm.settings := rfl

/-- All three branches of `logout_user` perform the same two revocations. -/
theorem logout_user_eq (sm : SecurityManager) (now : Nat) (a r : Token) :
    logout_user sm now a r = revoke_refresh_token (revoke_access_token sm a) r := by
  unfold logout_user
  rcases decode_token sm now a with e | p
  · rfl
  · rcases decode_token sm now r with e | q <;> rfl

/-- A token with no `type` claim, signed with the configured key. -/
def tokNoType : Token :=
  Token.signed { sub := some (uuidToStr 7), type := none, iat := 0, nbf := 0, exp := 100 }
    "k" "HS256"

/-- A manager whose two blacklists both contain `tokNoType` and a garbage
string. -/
def smBoth : SecurityManager :=
  { settings := settings0,
    blacklist_access := [tokNoType, Token.garbage "x"],
    blacklist_refresh := [tokNoType, Token.garbage "x"] }

/-! ### Claim theorems -/

/-- Claim C1: refresh-token rotation is single-use.  If `refresh_tokens`
succeeds on `rt` (yielding state `sm1`), then `rt` is in the refresh
revocation set of `sm1` and a second `refresh_tokens` call with the same
`rt`, on any database and at any later clock value, fails with the 401
Unauthorized produced from the `InvalidToken` raised by the revocation
check inside `decode_token`, leaving the state unchanged. -/
theorem refresh_rotation_single_use
    (db db2 : List User) (sm : SecurityManager) (now now2 : Nat) (rt : Token)
    (resp : TokenResponse) (sm1 : SecurityManager)
    (h : refresh_tokens db sm now rt = (Except.ok resp, sm1)) :
    rt ∈ sm1.blacklist_refresh ∧
    refresh_tokens db2 sm1 now2 rt =
      (Except.error { status_code := 401, detail := "Invalid or expired refresh token" },
       sm1) := by
  obtain ⟨⟨p, hdec, htype⟩, hnot, hsm1⟩ := refresh_tokens_ok_inv db sm now rt resp sm1 h
  have hjwt := decode_token_ok_jwt sm now rt p hdec
  have hshape := (jwtDecode_ok_shape rt _ _ now p hjwt).1
  subst hsm1
  have hmem : rt ∈ (revoke_refresh_token sm rt).blacklist_refresh := mem_setAdd_self rt _
  refine ⟨hmem, ?_⟩
  obtain ⟨e, he⟩ :=
    decode_token_revoked_refresh (revoke_refresh_token sm rt) now2 p htype
      (hshape ▸ hmem)
  rw [revoke_refresh_token_settings] at he
  rw [← hshape] at he
  exact refresh_tokens_of_decode_error db2 _ now2 rt e he

theorem refresh_rotation_single_use_witness :
    rt0 ∈ (revoke_refresh_token sm0 rt0).blacklist_refresh ∧
    refresh_tokens db0 (revoke_refresh_token sm0 rt0) 6 rt0 =
      (Except.error { status_code := 401, detail := "Invalid or expired refresh token" },
       revoke_refresh_token sm0 rt0) :=
  refresh_rotation_single_use db0 db0 sm0 5 6 rt0 resp0 (revoke_refresh_token sm0 rt0) rfl

/-- Claim C2: `decode_token` first runs the PyJWT signature and validity
window verification and only then the revocation check selected by the
decoded `type` claim: a verifiable token in the matching revocation set is
rejected, and a structurally invalid token produces the very same error on
any two manager states that share the settings, so its outcome is
independent of the revocation state. -/
theorem decode_token_order_and_revocation
    (sm sm2 : SecurityManager) (now : Nat) (t : Token)
    (hs : sm2.settings = sm.settings) :
    (∀ p, jwtDecode t sm.settings.JWT_SECRET_KEY sm.settings.JWT_ALGORITHM now =
        Except.ok p →
      ((p.type = some "access" ∧ t ∈ sm.blacklist_access) ∨
       (p.type = some "refresh" ∧ t ∈ sm.blacklist_refresh)) →
      ∃ e, decode_token sm now t = Except.error e) ∧
    (∀ e, jwtDecode t sm.settings.JWT_SECRET_KEY sm.settings.JWT_ALGORITHM now =
        Except.error e →
      decode_token sm now t = Except.error e ∧ decode_token sm2 now t = Except.error e) := by
  constructor
  · intro p hd hrev
    unfold decode_token
    rw [hd]
    rcases hrev with ⟨h1, h2⟩ | ⟨h1, h2⟩
    · exact ⟨JwtError.invalidToken "Access token has been revoked", by simp [h1, h2]⟩
    · exact ⟨JwtError.invalidToken "Refresh token has been revoked", by simp [h1, h2]⟩
  · intro e hd
    constructor
    · unfold decode_token
      rw [hd]
    · unfold decode_token
      rw [hs, hd]

theorem decode_token_order_and_revocation_witness :
    decode_token sm0 5 (Token.garbage "x") =
      Except.error (JwtError.invalidToken "Not enough segments") ∧
    decode_token smBoth 5 (Token.garbage "x") =
      Except.error (JwtError.invalidToken "Not enough segments") :=
  (decode_token_order_and_revocation sm0 smBoth 5 (Token.garbage "x") rfl).2
    (JwtError.invalidToken "Not enough segments") rfl

/-- Claim C4: `logout_user` is total (it returns a state for every pair of
token strings, garbage included, as the `except PyJWTError` branch repeats
exactly the two revocations of the success path); afterwards the access
argument is in the access revocation set and the refresh argument is in
the refresh revocation set, and a second call with the same strings, at
any clock value, leaves the state unchanged. -/
theorem logout_user_never_fails_and_idempotent
    (sm : SecurityManager) (now now2 : Nat) (a r : Token) :
    a ∈ (logout_user sm now a r).blacklist_access ∧
    r ∈ (logout_user sm now a r).blacklist_refresh ∧
    logout_user (logout_user sm now a r) now2 a r = logout_user sm now a r := by
  rw [logout_user_eq sm now a r, logout_user_eq _ now2 a r]
  refine ⟨mem_setAdd_self a _, mem_setAdd_self r _, ?_⟩
  have h1 : setAdd a (setAdd a sm.blacklist_access) = setAdd a sm.blacklist_access :=
    setAdd_of_mem _ _ (mem_setAdd_self a _)
  have h2 : setAdd r (setAdd r sm.blacklist_refresh) = setAdd r sm.blacklist_refresh :=
    setAdd_of_mem _ _ (mem_setAdd_self r _)
  simp [revoke_access_token, revoke_refresh_token, h1, h2]

/-- Claim C6 (counterexample): on a malformed hash string,
`verify_password` does not return a Boolean at all — the underlying
passlib context raises `UnknownHashError`, which the method does not
catch; in particular it does not return `false`. -/
theorem verify_password_malformed_raises :
    verify_password "secret" (HashStr.malformed "not-a-hash") =
      Except.error PasslibError.unknownHash ∧
    verify_password "secret" (HashStr.malformed "not-a-hash") ≠ Except.ok false := by
  refine ⟨rfl, ?_⟩
  intro h
  exact Except.noConfusion h

/-- Claim C6 (amended): `verify_password` returns the Boolean match result
for every hasher-produced hash string, but for a malformed hash string it
propagates the `UnknownHashError` raised by the hashing context instead of
returning `false`. -/
theorem verify_password_behaviour (plain p s : String) (salt : Nat) :
    verify_password plain (hash_password p salt) = Except.ok (decide (p = plain)) ∧
    verify_password plain (HashStr.malformed s) = Except.error PasslibError.unknownHash :=
  ⟨rfl, rfl⟩

/-- Claim C7: a successful `refresh_tokens` call leaves the access
revocation set unchanged; its only revocation effect is adding the
presented refresh token to the refresh revocation set. -/
theorem refresh_success_access_frame
    (db : List User) (sm : SecurityManager) (now : Nat) (rt : Token)
    (resp : TokenResponse) (sm1 : SecurityManager)
    (h : refresh_tokens db sm now rt = (Except.ok resp, sm1)) :
    sm1.blacklist_access = sm.blacklist_access ∧
    sm1.blacklist_refresh = setAdd rt sm.blacklist_refresh := by
  obtain ⟨-, -, hsm1⟩ := refresh_tokens_ok_inv db sm now rt resp sm1 h
  subst hsm1
  exact ⟨rfl, rfl⟩

theorem refresh_success_access_frame_witness :
    (revoke_refresh_token sm0 rt0).blacklist_access = sm0.blacklist_access ∧
    (revoke_refresh_token sm0 rt0).blacklist_refresh = setAdd rt0 sm0.blacklist_refresh :=
  refresh_success_access_frame db0 sm0 5 rt0 resp0 (revoke_refresh_token sm0 rt0) rfl

/-- Claim C8: `logout_user` partitions revocations by argument position,
not by decoded token type: the first argument always lands in the access
set and the second in the refresh set; hence a structurally valid refresh
token passed in the access position is still accepted by `decode_token`
afterwards, because its own `type` claim selects the refresh partition,
which was not updated. -/
theorem logout_partitions_by_position
    (sm : SecurityManager) (now now2 : Nat) (a r : Token) (p : Claims)
    (hd : jwtDecode a sm.settings.JWT_SECRET_KEY sm.settings.JWT_ALGORITHM now2 =
      Except.ok p)
    (htype : p.type = some "refresh")
    (hnr : a ∉ sm.blacklist_refresh) (hne : a ≠ r) :
    (logout_user sm now a r).blacklist_access = setAdd a sm.blacklist_access ∧
    (logout_user sm now a r).blacklist_refresh = setAdd r sm.blacklist_refresh ∧
    decode_token (logout_user sm now a r) now2 a = Except.ok p := by
  rw [logout_user_eq]
  refine ⟨rfl, rfl, ?_⟩
  unfold decode_token
  simp only [revoke_access_token, revoke_refresh_token]
  rw [hd]
  have hmem2 : a ∉ setAdd r sm.blacklist_refresh := by
    intro hmem
    rcases (mem_setAdd_iff a r sm.blacklist_refresh).1 hmem with heq | hm
    · exact hne heq
    · exact hnr hm
  simp [htype, hmem2]

theorem logout_partitions_by_position_witness :
    (logout_user sm0 5 rt0 (Token.garbage "r")).blacklist_access =
      setAdd rt0 sm0.blacklist_access ∧
    (logout_user sm0 5 rt0 (Token.garbage "r")).blacklist_refresh =
      setAdd (Token.garbage "r") sm0.blacklist_refresh ∧
    decode_token (logout_user sm0 5 rt0 (Token.garbage "r")) 5 rt0 =
      Except.ok { sub := some (uuidToStr 7), type := some "refresh",
                  iat := 0, nbf := 0, exp := 100 } :=
  logout_partitions_by_position sm0 5 5 rt0 (Token.garbage "r")
    { sub := some (uuidToStr 7), type := some "refresh", iat := 0, nbf := 0, exp := 100 }
    rfl rfl (by decide) (by decide)

/-- Claim C9: `decode_token` skips the revocation check entirely when the
decoded `type` claim is absent or neither "access" nor "refresh": such a
token with a valid signature and validity window is returned successfully
on every manager state, including states whose two revocation sets both
contain the token. -/
theorem decode_token_skips_revocation_for_unknown_type
    (sm : SecurityManager) (now : Nat) (t : Token) (p : Claims)
    (hd : jwtDecode t sm.settings.JWT_SECRET_KEY sm.settings.JWT_ALGORITHM now =
      Except.ok p)
    (hta : p.type ≠ some "access") (htr : p.type ≠ some "refresh") :
    decode_token sm now t = Except.ok p := by
  unfold decode_token
  rw [hd]
  simp [hta, htr]

theorem decode_token_skips_revocation_for_unknown_type_witness :
    decode_token smBoth 5 tokNoType =
      Except.ok { sub := some (uuidToStr 7), type := none, iat := 0, nbf := 0, exp := 100 } :=
  decode_token_skips_revocation_for_unknown_type smBoth 5 tokNoType
    { sub := some (uuidToStr 7), type := none, iat := 0, nbf := 0, exp := 100 }
    rfl (by decide) (by decide)

/-- A token signed with the configured key decodes successfully inside its
validity window whenever neither revocation clause applies. -/
theorem decode_token_signed_ok (sm : SecurityManager) (now : Nat) (p : Claims)
    (hnbf : p.nbf ≤ now) (hexp : now < p.exp)
    (hna : ¬(p.type = some "access" ∧
      Token.signed p sm.settings.JWT_SECRET_KEY sm.settings.JWT_ALGORITHM ∈
        sm.blacklist_access))
    (hnr : ¬(p.type = some "refresh" ∧
      Token.signed p sm.settings.JWT_SECRET_KEY sm.settings.JWT_ALGORITHM ∈
        sm.blacklist_refresh)) :
    decode_token sm now
      (Token.signed p sm.settings.JWT_SECRET_KEY sm.settings.JWT_ALGORITHM) =
      Except.ok p := by
  unfold decode_token
  rw [jwtDecode_signed_ok p _ _ now hnbf hexp]
  simp [hna, hnr]

/-- Claim C3: `get_current_user_id` performs its checks in order — access
revocation first, then decoding, then the `sub` claim (presence and UUID
parse), then the `type` claim — each failure mapping to a 401
Unauthorized; the result never depends on the user table, and every token
built by `create_refresh_token` is rejected with a 401. -/
theorem get_current_user_id_check_order
    (db : List User) (sm : SecurityManager) (now : Nat) (t : Token) :
    (t ∈ sm.blacklist_access →
      get_current_user_id db sm now t =
        Except.error { status_code := 401, detail := "Token has been revoked" }) ∧
    (t ∉ sm.blacklist_access → ∀ e, decode_token sm now t = Except.error e →
      get_current_user_id db sm now t =
        Except.error { status_code := 401, detail := "Could not validate credentials" }) ∧
    (t ∉ sm.blacklist_access → ∀ p, decode_token sm now t = Except.ok p → p.sub = none →
      get_current_user_id db sm now t =
        Except.error { status_code := 401, detail := "Could not validate credentials" }) ∧
    (t ∉ sm.blacklist_access → ∀ p s, decode_token sm now t = Except.ok p →
      p.sub = some s → parseUUID s = none →
      get_current_user_id db sm now t =
        Except.error { status_code := 401, detail := "Invalid user ID in token" }) ∧
    (t ∉ sm.blacklist_access → ∀ p s u, decode_token sm now t = Except.ok p →
      p.sub = some s → parseUUID s = some u → p.type ≠ some "access" →
      get_current_user_id db sm now t =
        Except.error
          { status_code := 401,
            detail := "Invalid token type. Only access tokens are allowed for this endpoint." }) ∧
    (t ∉ sm.blacklist_access → ∀ p s u, decode_token sm now t = Except.ok p →
      p.sub = some s → parseUUID s = some u → p.type = some "access" →
      get_current_user_id db sm now t = Except.ok u) ∧
    (∀ db2, get_current_user_id db sm now t = get_current_user_id db2 sm now t) ∧
    (∀ (now0 : Nat) (u : UUID) (d : Option Nat), ∃ e,
      get_current_user_id db sm now (create_refresh_token sm now0 u d) =
        Except.error e ∧ e.status_code = 401) := by
  refine ⟨?_, ?_, ?_, ?_, ?_, ?_, ?_, ?_⟩
  · intro hmem
    unfold get_current_user_id
    simp [is_access_token_revoked, hmem]
  · intro hmem e hd
    unfold get_current_user_id
    simp [is_access_token_revoked, hmem, hd]
  · intro hmem p hd hsub
    unfold get_current_user_id
    simp [is_access_token_revoked, hmem, hd, hsub]
  · intro hmem p s hd hsub hu
    unfold get_current_user_id
    simp [is_access_token_revoked, hmem, hd, hsub, hu]
  · intro hmem p s u hd hsub hu hty
    unfold get_current_user_id
    simp [is_access_token_revoked, hmem, hd, hsub, hu, hty]
  · intro hmem p s u hd hsub hu hty
    unfold get_current_user_id
    simp [is_access_token_revoked, hmem, hd, hsub, hu, hty]
  · intro db2
    rfl
  · intro now0 u d
    by_cases hmem : create_refresh_token sm now0 u d ∈ sm.blacklist_access
    · refine ⟨{ status_code := 401, detail := "Token has been revoked" }, ?_, rfl⟩
      unfold get_current_user_id
      simp [is_access_token_revoked, hmem]
    · cases hd : decode_token sm now (create_refresh_token sm now0 u d) with
      | error e =>
        refine ⟨{ status_code := 401, detail := "Could not validate credentials" }, ?_, rfl⟩
        unfold get_current_user_id
        simp [is_access_token_revoked, hmem, hd]
      | ok p =>
        have hjwt := decode_token_ok_jwt sm now _ p hd
        have hshape := (jwtDecode_ok_shape _ _ _ _ _ hjwt).1
        have hcrt : create_refresh_token sm now0 u d =
            Token.signed
              { sub := some (uuidToStr u), type := some "refresh", iat := now0, nbf := now0,
                exp := now0 + timedeltaOr d (sm.settings.JWT_REFRESH_TOKEN_EXPIRE_DAYS * 86400) }
              sm.settings.JWT_SECRET_KEY sm.settings.JWT_ALGORITHM := rfl
        rw [hcrt] at hshape
        injection hshape with hp hk ha
        refine
          ⟨{ status_code := 401,
             detail := "Invalid token type. Only access tokens are allowed for this endpoint." },
           ?_, rfl⟩
        unfold get_current_user_id
        simp [is_access_token_revoked, hmem, hd, ← hp, parseUUID, uuidToStr]

/-- Claim C5: token construction and round-trip.  A default-lifetime
access token for subject `u` is exactly the compact token for the claims
set with `sub` the string form of `u`, type "access", `iat` and `nbf` the
issue time and `exp` the issue time plus the configured access TTL in
minutes, and it decodes back to that very payload at any clock value in
the validity window while unrevoked; symmetrically for refresh tokens with
type "refresh" and the configured refresh TTL in days. -/
theorem create_token_roundtrip
    (sm : SecurityManager) (now now2 : Nat) (u : UUID)
    (ha : create_access_token sm now u none ∉ sm.blacklist_access)
    (hr : create_refresh_token sm now u none ∉ sm.blacklist_refresh)
    (h1 : now ≤ now2)
    (h2 : now2 < now + sm.settings.JWT_ACCESS_TOKEN_EXPIRE_MINUTES * 60)
    (h3 : now2 < now + sm.settings.JWT_REFRESH_TOKEN_EXPIRE_DAYS * 86400) :
    create_access_token sm now u none =
      Token.signed
        { sub := some (uuidToStr u), type := some "access", iat := now, nbf := now,
          exp := now + sm.settings.JWT_ACCESS_TOKEN_EXPIRE_MINUTES * 60 }
        sm.settings.JWT_SECRET_KEY sm.settings.JWT_ALGORITHM ∧
    decode_token sm now2 (create_access_token sm now u none) =
      Except.ok
        { sub := some (uuidToStr u), type := some "access", iat := now, nbf := now,
          exp := now + sm.settings.JWT_ACCESS_TOKEN_EXPIRE_MINUTES * 60 } ∧
    create_refresh_token sm now u none =
      Token.signed
        { sub := some (uuidToStr u), type := some "refresh", iat := now, nbf := now,
          exp := now + sm.settings.JWT_REFRESH_TOKEN_EXPIRE_DAYS * 86400 }
        sm.settings.JWT_SECRET_KEY sm.settings.JWT_ALGORITHM ∧
    decode_token sm now2 (create_refresh_token sm now u none) =
      Except.ok
        { sub := some (uuidToStr u), type := some "refresh", iat := now, nbf := now,
          exp := now + sm.settings.JWT_REFRESH_TOKEN_EXPIRE_DAYS * 86400 } := by
  refine ⟨rfl, ?_, rfl, ?_⟩
  · exact decode_token_signed_ok sm now2
      { sub := some (uuidToStr u), type := some "access", iat := now, nbf := now,
        exp := now + sm.settings.JWT_ACCESS_TOKEN_EXPIRE_MINUTES * 60 }
      h1 h2 (fun hc => ha hc.2) (by simp)
  · exact decode_token_signed_ok sm now2
      { sub := some (uuidToStr u), type := some "refresh", iat := now, nbf := now,
        exp := now + sm.settings.JWT_REFRESH_TOKEN_EXPIRE_DAYS * 86400 }
      h1 h3 (by simp) (fun hc => hr hc.2)

theorem create_token_roundtrip_witness :
    decode_token sm0 1 (create_access_token sm0 0 7 none) =
      Except.ok
        { sub := some (uuidToStr 7), type := some "access", iat := 0, nbf := 0,
          exp := 900 } ∧
    decode_token sm0 1 (create_refresh_token sm0 0 7 none) =
      Except.ok
        { sub := some (uuidToStr 7), type := some "refresh", iat := 0, nbf := 0,
          exp := 604800 } :=
  ⟨(create_token_roundtrip sm0 0 1 7 (by decide) (by decide) (by decide) (by decide)
      (by decide)).2.1,
   (create_token_roundtrip sm0 0 1 7 (by decide) (by decide) (by decide) (by decide)
      (by decide)).2.2.2⟩

theorem get_current_user_id_check_order_witness :
    get_current_user_id db0 sm0 5 (Token.garbage "x") =
      Except.error { status_code := 401, detail := "Could not validate credentials" } :=
  (get_current_user_id_check_order db0 sm0 5 (Token.garbage "x")).2.1 (by decide)
    (JwtError.invalidToken "Not enough segments") rfl

/-- Case analysis on `refresh_tokens`: either the state is returned
untouched, or the call succeeded and the only state change is the
revocation of the presented token. -/
theorem refresh_tokens_cases (db : List User) (sm : SecurityManager) (now : Nat)
    (rt : Token) :
    (refresh_tokens db sm now rt).2 = sm ∨
    ∃ resp, refresh_tokens db sm now rt = (Except.ok resp, revoke_refresh_token sm rt) := by
  unfold refresh_tokens
  cases hd : decode_token sm now rt with
  | error e => left; rfl
  | ok q =>
    simp only []
    split
    · left; rfl
    · split
      · left; rfl
      · split
        · left; rfl
        · split
          · left; rfl
          · right; exact ⟨_, rfl⟩

/-- Claim C10: `refresh_tokens` is atomic on failure — whenever the call
fails with an `HTTPException`, both revocation sets (indeed the whole
manager state) are exactly as before the call; the presented token is
revoked only on the success path. -/
theorem refresh_failure_atomic
    (db : List User) (sm : SecurityManager) (now : Nat) (rt : Token)
    (e : HTTPException)
    (h : (refresh_tokens db sm now rt).1 = Except.error e) :
    (refresh_tokens db sm now rt).2 = sm := by
  rcases refresh_tokens_cases db sm now rt with hc | ⟨resp, hc⟩
  · exact hc
  · rw [hc] at h
    simp at h

theorem refresh_failure_atomic_witness :
    (refresh_tokens db0 sm0 5 (Token.garbage "bad")).2 = sm0 :=
  refresh_failure_atomic db0 sm0 5 (Token.garbage "bad")
    { status_code := 401, detail := "Invalid or expired refresh token" } rfl

end TaskMgr
